import Mathlib

/-!
Shallow embedding of the books-cron-report service, centered on the
batch-ingestion / status-reporting pipeline:

* `bulkCron.js` (`processBulkBooks`): the Ingestion Job, which drains
  pending bulk-upload payloads from the key-value store, validates and
  persists each submission, and records a per-batch status record.
* the report cron module (`processStatusReports`, `generatePDFReport`,
  `getUserEmail`, `sendReportEmail`): the Report Job, which drains status
  records, resolves the owning user's address, renders a summary and
  dispatches it, then deletes the record.
* the books routes module (`invalidateUserCache` and the CRUD / bulk
  handlers): the per-user book-list cache.

JavaScript-specific semantics that matter here are made explicit:
string/field truthiness (absent, null and the empty string are falsy),
per-item try/catch isolation, and IEEE division producing NaN/Infinity
rather than throwing.
-/

namespace BooksCron

/-- JS truthiness of an optional string field: absent/null and the empty
string are falsy, any other string is truthy. -/
def truthy : Option String → Bool
  | none => false
  | some s => s != ""

/-- JS `a || b` on an optional string: the left operand if truthy,
otherwise the default. -/
def jsOr (o : Option String) (d : String) : String :=
  if truthy o then o.getD d else d

/-- One raw book submission from a pending batch: an unvalidated mapping
of optional fields, as consumed by `processBulkBooks`. -/
structure BookSub where
  title : Option String
  author : Option String
  isbn : Option String
  publishedDate : Option String
  genre : Option String
  description : Option String
  deriving DecidableEq, Repr

/-- One Failure Detail entry recorded in a Batch Status Record:
original position, attempted title, error message. -/
structure Failure where
  index : Nat
  title : String
  error : String
  deriving DecidableEq, Repr

/-- The validation error message thrown by `processBulkBooks` when a
submission lacks a truthy title or author. -/
def requiredFieldsMsg : String := "Missing required fields: title and author"

/-- The isbn actually stored on a new Book document: the submission's
isbn if truthy, else null (the source writes `book.isbn || null`). -/
def storedIsbn (b : BookSub) : Option String :=
  if truthy b.isbn then b.isbn else none

/-- Modelled from the spec: the Book model (`models/books`) is not under
`src/`; per the spec's data model, a Book Record's isbn, where present,
is unique within the whole store, and `save` surfaces a uniqueness
conflict as a typed error. The document store is abstracted to the list
of isbns already persisted. -/
def saveBook (isbns : List String) (b : BookSub) : Except String (List String) :=
  match storedIsbn b with
  | some s => if s ∈ isbns then .error "E11000 duplicate key error" else .ok (isbns ++ [s])
  | none => .ok isbns

/-- The body of the per-item try block of `processBulkBooks`: validate
required fields (title, author), then create and save the Book document.
Any error is the per-item failure that the loop catches. -/
def validateAndSave (isbns : List String) (b : BookSub) : Except String (List String) :=
  if !(truthy b.title) || !(truthy b.author) then .error requiredFieldsMsg
  else saveBook isbns b

/-- Whether a fallible step succeeded (no exception thrown). -/
def isOkB {α : Type} : Except String α → Bool
  | .ok _ => true
  | .error _ => false

/-- The attempted title recorded in a Failure Detail: the source writes
`book.title || 'Unknown'`. -/
def failTitle (b : BookSub) : String := jsOr b.title "Unknown"

/-- Document-store state after one submission is attempted: the new isbn
list on success, unchanged on a caught per-item failure. -/
def stepIsbns (isbns : List String) (b : BookSub) : List String :=
  match validateAndSave isbns b with
  | .ok isbns' => isbns'
  | .error _ => isbns

/-- Document-store state after a whole list of submissions is attempted
in order, each failure caught and skipped. -/
def isbnsAfter (isbns : List String) : List BookSub → List String
  | [] => isbns
  | b :: rest => isbnsAfter (stepIsbns isbns b) rest

/-- Whether the submission at position `i` of the batch validates and
persists without error, given the document-store state it actually sees
(the state after the prefix of earlier submissions was attempted). -/
def succeedsAt (isbns : List String) (books : List BookSub) (i : Nat) : Bool :=
  match books[i]? with
  | some b =>
    match validateAndSave (isbnsAfter isbns (books.take i)) b with
    | .ok _ => true
    | .error _ => false
  | none => false

/-- Running tallies of the per-batch loop of `processBulkBooks`, plus the
resulting document-store state. -/
structure BatchTally where
  successCount : Nat
  failureCount : Nat
  failures : List Failure
  isbns : List String
  deriving DecidableEq, Repr

/-- The per-batch loop of `processBulkBooks`, starting at loop index `i`:
each submission is validated and saved; a failure increments the failure
count and records a Failure Detail with the original position, the
attempted title and the error message, then the loop continues. -/
def processBooksFrom (isbns : List String) (i : Nat) : List BookSub → BatchTally
  | [] => ⟨0, 0, [], isbns⟩
  | b :: rest =>
    match validateAndSave isbns b with
    | .ok isbns' =>
      let t := processBooksFrom isbns' (i + 1) rest
      ⟨t.successCount + 1, t.failureCount, t.failures, t.isbns⟩
    | .error e =>
      let t := processBooksFrom isbns (i + 1) rest
      ⟨t.successCount, t.failureCount + 1, ⟨i, failTitle b, e⟩ :: t.failures, t.isbns⟩

/-- A Batch Status Record as written by `processBulkBooks` under a
`bulk_status` key. -/
structure BulkStatus where
  userId : String
  totalBooks : Nat
  successCount : Nat
  failureCount : Nat
  timestamp : String
  failures : List Failure
  deriving DecidableEq, Repr

/-- The Batch Status Record produced by one pass of the per-batch loop
over a parsed, nonempty batch. -/
def mkStatus (uid now : String) (isbns : List String) (books : List BookSub) : BulkStatus :=
  let t := processBooksFrom isbns 0 books
  ⟨uid, books.length, t.successCount, t.failureCount, now, t.failures⟩

/-- The value found under a discovered `bulk_books` key, classified by
how `processBulkBooks` reacts to it: absent (get returned nil), present
but an empty string (JS-falsy, treated as no data), a string on which
`JSON.parse` throws (with the thrown message), a JSON value that is not
an array, or an array of submissions. -/
inductive BatchValue where
  | missing : BatchValue
  | emptyString : BatchValue
  | malformed : String → BatchValue
  | nonArray : BatchValue
  | array : List BookSub → BatchValue
  deriving DecidableEq, Repr

/-- The observable outcome of `processBulkBooks` on one discovered key:
whether the pending key was deleted, the status record written (with its
`setEx` TTL in seconds), whether a Batch Error Record was written by the
per-user catch, and the resulting document-store state. -/
structure IngestResult where
  keyDeleted : Bool
  statusWritten : Option (Nat × BulkStatus)
  bulkErrorWritten : Bool
  isbns : List String
  deriving DecidableEq, Repr

/-- One discovered `bulk_books` key processed by `processBulkBooks`:
a falsy value is skipped without deletion; a value `JSON.parse` throws on
reaches the per-user catch, which writes a Batch Error Record and does
not delete the key; a non-array or empty-array value is deleted and
skipped; a nonempty array is processed item by item, a status record is
written with a 24-hour TTL, and the key is deleted. -/
def processIngestKey (uid now : String) (isbns : List String) :
    BatchValue → IngestResult
  | .missing => ⟨false, none, false, isbns⟩
  | .emptyString => ⟨false, none, false, isbns⟩
  | .malformed _ => ⟨false, none, true, isbns⟩
  | .nonArray => ⟨true, none, false, isbns⟩
  | .array books =>
    if books.isEmpty then ⟨true, none, false, isbns⟩
    else ⟨true, some (86400, mkStatus uid now isbns books), false,
          (processBooksFrom isbns 0 books).isbns⟩

/-- The slice of key-value-store and document-store state relevant to one
user during an Ingestion Job pass: the pending `bulk_books` value, the
status records and Batch Error Records written so far, the user's cached
book-list value (the `user:` books cache key), and the persisted isbns. -/
structure IngestStore where
  pending : BatchValue
  statusRecords : List (Nat × BulkStatus)
  bulkErrorCount : Nat
  userBooksCache : Option String
  isbns : List String
  deriving DecidableEq, Repr

/-- One Ingestion Job pass over the user's pending key, as a transition
on the store state. `processBulkBooks` reads, processes and deletes only
the `bulk_books`, `bulk_status` and `bulk_error` keys: it performs no
write or delete on the user's cached book-list key, so that field is
carried through unchanged. -/
def ingestStep (uid now : String) (s : IngestStore) : IngestStore :=
  let r := processIngestKey uid now s.isbns s.pending
  { pending := if r.keyDeleted then .missing else s.pending
    statusRecords := s.statusRecords ++ (match r.statusWritten with
      | some p => [p]
      | none => [])
    bulkErrorCount := s.bulkErrorCount + (if r.bulkErrorWritten then 1 else 0)
    userBooksCache := s.userBooksCache
    isbns := r.isbns }

/-- Shorthand for the failing original positions of a batch: the indices
in `[0, N)` whose submission does not validate-and-persist. -/
def failIdx (isbns : List String) (books : List BookSub) : List Nat :=
  (List.range books.length).filter (fun j => !(succeedsAt isbns books j))

/-- Shorthand for the succeeding original positions of a batch. -/
def succIdx (isbns : List String) (books : List BookSub) : List Nat :=
  (List.range books.length).filter (fun j => succeedsAt isbns books j)

/-!
Report Job side: the report cron module's `generatePDFReport`,
`getUserEmail`, `sendReportEmail` and `processStatusReports`.
-/

/-- A JS number as produced by the success-rate arithmetic on
non-negative integer counts: exact where the denominator is nonzero,
NaN for 0/0 and Infinity for a positive numerator over zero. IEEE
double rounding on in-range small integers is exact, so ℚ is faithful
here; division never throws. -/
inductive JsNum where
  | nan : JsNum
  | inf : JsNum
  | num : ℚ → JsNum
  deriving DecidableEq

/-- The success-rate expression of the report renderer and email body:
`(successCount / totalBooks) * 100` under JS division semantics. -/
def successRate (s t : Nat) : JsNum :=
  if t = 0 then (if s = 0 then .nan else .inf)
  else .num ((s : ℚ) * 100 / (t : ℚ))

/-- JS `Number.prototype.toFixed(2)` on a non-negative rational: round
to two decimals (half away from zero on the exact value; binary-double
midpoint artifacts are abstracted) and render with a two-digit fraction. -/
def toFixed2 (q : ℚ) : String :=
  let n := (⌊q * 100 + 1 / 2⌋).toNat
  toString (n / 100) ++ "." ++ (if n % 100 < 10 then "0" else "") ++ toString (n % 100)

/-- The string interpolated for the success rate (before the percent
sign): `toFixed(2)` of the rate, or the JS renderings of NaN/Infinity. -/
def renderRate (s t : Nat) : String :=
  match successRate s t with
  | .nan => "NaN"
  | .inf => "Infinity"
  | .num q => toFixed2 q

/-- The Summary section lines of `generatePDFReport` (the email body of
`sendReportEmail` interpolates the same counts and the same rate
expression). -/
def pdfSummaryLines (totalBooks successCount failureCount : Nat) : List String :=
  ["Total Books Processed: " ++ toString totalBooks,
   "Successful Insertions: " ++ toString successCount,
   "Failed Insertions: " ++ toString failureCount,
   "Success Rate: " ++ renderRate successCount totalBooks ++ "%"]

/-- A user document as seen by `getUserEmail`: only the email field
matters. -/
structure UserDoc where
  email : Option String
  deriving DecidableEq, Repr

/-- The cache-then-default tail of `getUserEmail`: read the cached
address under the `user_email:` key; if truthy, use it; otherwise fall
back to `DEFAULT_EMAIL || 'admin@example.com'`. A thrown cache read
propagates. -/
def cachedOrDefault (cachedEmail : Except String (Option String))
    (defaultEmailEnv : Option String) : Except String String :=
  match cachedEmail with
  | .error e => .error e
  | .ok c =>
    if truthy c then .ok (c.getD "")
    else .ok (jsOr defaultEmailEnv "admin@example.com")

/-- Address resolution of `getUserEmail`: look the user up by id; if the
lookup throws, the source's catch logs and re-throws, so the error
propagates; if the user exists and has a truthy email (`user &&
user.email`), use it; otherwise fall through to the cached address and
then the configured default. -/
def getUserEmail (findUser : Except String (Option UserDoc))
    (cachedEmail : Except String (Option String))
    (defaultEmailEnv : Option String) : Except String String :=
  match findUser with
  | .error e => .error e
  | .ok (some u) =>
    if truthy u.email then .ok (u.email.getD "")
    else cachedOrDefault cachedEmail defaultEmailEnv
  | .ok none => cachedOrDefault cachedEmail defaultEmailEnv

/-- Modelled from the spec: the claim-level reading of address
resolution (the User model itself is not under `src/`): use the user's
address when the looked-up user carries one, else the cached address,
else the fixed default from configuration; a present-but-empty address
counts as absent, matching the spec's phrase "has no address field". -/
def resolveAddressSpec (user : Option UserDoc) (cached : Option String)
    (defaultAddr : String) : String :=
  if truthy (user.bind UserDoc.email) then (user.bind UserDoc.email).getD ""
  else if truthy cached then cached.getD ""
  else defaultAddr

/-- A status value as parsed by `processStatusReports` from a
`bulk_status` key: the fields it validates (`userId` truthy,
`totalBooks !== undefined`) may be absent, the rest are carried for
rendering. -/
structure ParsedStatus where
  userId : Option String
  totalBooks : Option Nat
  successCount : Nat
  failureCount : Nat
  timestamp : String
  failures : List Failure
  deriving DecidableEq, Repr

/-- Validation applied by `processStatusReports` after parsing: skip-and-
delete unless `userId` is truthy and `totalBooks` is defined. -/
def validStatus (ps : ParsedStatus) : Bool :=
  truthy ps.userId && ps.totalBooks.isSome

/-- The value found under a discovered `bulk_status` key, classified by
how `processStatusReports` reacts to it: absent, present but an empty
string (JS-falsy, skipped), a string `JSON.parse` throws on (with the
thrown message), or a parsed status object. -/
inductive StatusValue where
  | missing : StatusValue
  | emptyString : StatusValue
  | malformed : String → StatusValue
  | parsed : ParsedStatus → StatusValue
  deriving DecidableEq, Repr

/-- A Report Error Record as written under a `report_error:` key by the
per-record catch of `processStatusReports`: the user, the originating
status key, the error message, the wall-clock stamp used in the key, the
retry counter (initialized to zero and never touched again), and the
`setEx` TTL in seconds. -/
structure ReportErrorRecord where
  userId : String
  originalKey : String
  error : String
  timestamp : Nat
  retryCount : Nat
  ttl : Nat
  deriving DecidableEq, Repr

/-- The Report Error Record written when processing a status key fails
at time `t`. -/
def mkErrRec (uid key e : String) (t : Nat) : ReportErrorRecord :=
  ⟨uid, key, e, t, 0, 86400⟩

/-- The effectful collaborators of one report attempt, each either
succeeding or throwing: the document-store user lookup, the cached
address read, the configured default address, PDF generation, and the
mail transport send. -/
structure ReportEnv where
  findUser : Except String (Option UserDoc)
  cachedEmail : Except String (Option String)
  defaultEmailEnv : Option String
  renderResult : Except String Unit
  sendResult : Except String Unit
  deriving Repr

/-- The observable outcome of `processStatusReports` on one discovered
status key: whether it deleted the key, the address an email went to (if
one was sent), and the error record written by the per-record catch (if
any). -/
structure ReportKeyResult where
  keyDeleted : Bool
  emailSent : Option String
  errorRecord : Option ReportErrorRecord
  deriving DecidableEq, Repr

/-- One discovered `bulk_status` key processed by `processStatusReports`
at time `t`: a falsy value is skipped; a value `JSON.parse` throws on
reaches the per-record catch (error record, key left); a parsed status
missing `userId` or `totalBooks` is deleted and skipped; otherwise the
address is resolved, the report rendered and sent, after which the key
is deleted — any throw in lookup, render or send instead writes a
Report Error Record with a 24-hour TTL and leaves the key in place. -/
def processReportKey (uid key : String) (t : Nat) (env : ReportEnv) :
    StatusValue → ReportKeyResult
  | .missing => ⟨false, none, none⟩
  | .emptyString => ⟨false, none, none⟩
  | .malformed e => ⟨false, none, some (mkErrRec uid key e t)⟩
  | .parsed ps =>
    if !(validStatus ps) then ⟨true, none, none⟩
    else
      match getUserEmail env.findUser env.cachedEmail env.defaultEmailEnv with
      | .error e => ⟨false, none, some (mkErrRec uid key e t)⟩
      | .ok addr =>
        match env.renderResult with
        | .error e => ⟨false, none, some (mkErrRec uid key e t)⟩
        | .ok _ =>
          match env.sendResult with
          | .error e => ⟨false, none, some (mkErrRec uid key e t)⟩
          | .ok _ => ⟨true, some addr, none⟩

/-- Whether one report attempt's collaborators all succeed: address
resolution, rendering, and sending. -/
def reportAttemptOk (env : ReportEnv) : Bool :=
  (match getUserEmail env.findUser env.cachedEmail env.defaultEmailEnv with
   | .ok _ => true
   | .error _ => false)
  && (match env.renderResult with | .ok _ => true | .error _ => false)
  && (match env.sendResult with | .ok _ => true | .error _ => false)

/-- The slice of key-value-store state relevant to one status key across
Report Job passes: the key's current value and the accumulated Report
Error Records. -/
structure ReportStore where
  statusValue : StatusValue
  errorRecords : List ReportErrorRecord
  deriving DecidableEq, Repr

/-- One Report Job pass over the status key at time `t`: the key becomes
absent exactly when the pass deleted it, and any error record written is
appended. -/
def reportPass (uid key : String) (t : Nat) (env : ReportEnv)
    (s : ReportStore) : ReportStore :=
  let r := processReportKey uid key t env s.statusValue
  ⟨if r.keyDeleted then .missing else s.statusValue,
   s.errorRecords ++ (match r.errorRecord with
     | some e => [e]
     | none => [])⟩

/-!
Books routes: the CRUD and bulk handlers and the per-user book-list
cache they invalidate through `invalidateUserCache`.
-/

/-- A persisted Book Record as handled by the routes module: an id, the
validated fields, and the owning user. Insertion order stands in for the
creation timestamp. -/
structure BookRec where
  id : Nat
  title : String
  author : String
  isbn : String
  publishedYear : Option Nat
  genre : Option String
  userId : String
  deriving DecidableEq, Repr

/-- The state the routes act on: the persisted books (in insertion
order), a fresh-id counter, and the per-user book-list cache, one entry
per user cache key. -/
structure ApiState where
  db : List BookRec
  nextId : Nat
  cache : String → Option (List BookRec)

/-- The routes module's `invalidateUserCache`: delete the one cache key
of the given user. -/
def invalidateUserCache (uid : String) (c : String → Option (List BookRec)) :
    String → Option (List BookRec) :=
  fun u => if u = uid then none else c u

/-- The POST route: validate that title, author and isbn are truthy
(strings here, with the empty string standing for an absent-or-falsy
body field), reject a duplicate isbn (the unique index surfaces error
code 11000), else persist the book and invalidate the user's cache. The
Bool reports whether a book was created. -/
def createBook (st : ApiState) (uid title author isbn : String)
    (py : Option Nat) (genre : Option String) : ApiState × Bool :=
  if title = "" || author = "" || isbn = "" then (st, false)
  else if st.db.any (fun b => b.isbn == isbn) then (st, false)
  else
    ({ db := st.db ++ [⟨st.nextId, title, author, isbn, py, genre, uid⟩]
       nextId := st.nextId + 1
       cache := invalidateUserCache uid st.cache }, true)

/-- Field update as applied by `findOneAndUpdate`: a provided value
replaces the stored one, an undefined value leaves it unchanged. -/
def applyUpdate (b : BookRec) (title author isbn : Option String)
    (py : Option Nat) (genre : Option String) : BookRec :=
  { b with
    title := title.getD b.title
    author := author.getD b.author
    isbn := isbn.getD b.isbn
    publishedYear := py.orElse (fun _ => b.publishedYear)
    genre := genre.orElse (fun _ => b.genre) }

/-- The PUT route: find the book by id and owner (404 otherwise), apply
the update, reject an isbn now colliding with a different document
(11000), else persist and invalidate the user's cache. -/
def updateBook (st : ApiState) (uid : String) (bid : Nat)
    (title author isbn : Option String) (py : Option Nat)
    (genre : Option String) : ApiState × Bool :=
  match st.db.find? (fun b => b.id == bid && b.userId == uid) with
  | none => (st, false)
  | some b =>
    let b' := applyUpdate b title author isbn py genre
    if st.db.any (fun c => c.id != bid && c.isbn == b'.isbn) then (st, false)
    else
      ({ st with
         db := st.db.map (fun c => if c.id == bid then b' else c)
         cache := invalidateUserCache uid st.cache }, true)

/-- The DELETE route: find the book by id and owner (404 otherwise),
remove it and invalidate the user's cache. -/
def deleteBook (st : ApiState) (uid : String) (bid : Nat) : ApiState × Bool :=
  match st.db.find? (fun b => b.id == bid && b.userId == uid) with
  | none => (st, false)
  | some _ =>
    ({ st with
       db := st.db.filter (fun b => !(b.id == bid && b.userId == uid))
       cache := invalidateUserCache uid st.cache }, true)

/-- One bulk-route submission: title, author, isbn (the route requires
all three truthy). -/
structure BulkRouteBook where
  title : String
  author : String
  isbn : String
  deriving DecidableEq, Repr

/-- `insertMany` with `ordered: false`: every document is attempted;
those whose isbn collides with an already-persisted one are skipped and
reported as a duplicate error, the rest are inserted. -/
def insertManyUnordered (db : List BookRec) (nextId : Nat) (uid : String) :
    List BulkRouteBook → List BookRec × Nat
  | [] => (db, nextId)
  | b :: rest =>
    if db.any (fun c => c.isbn == b.isbn) then insertManyUnordered db nextId uid rest
    else insertManyUnordered
      (db ++ [⟨nextId, b.title, b.author, b.isbn, none, none, uid⟩])
      (nextId + 1) uid rest

/-- The POST bulk route: reject an empty list or any submission missing
a truthy title, author or isbn; otherwise run `insertMany` — both its
success path and its duplicate-key (11000) catch invalidate the user's
cache. The Bool reports whether the insert was attempted. -/
def bulkInsertBooks (st : ApiState) (uid : String)
    (books : List BulkRouteBook) : ApiState × Bool :=
  if books.isEmpty then (st, false)
  else if books.any (fun b => b.title == "" || b.author == "" || b.isbn == "") then
    (st, false)
  else
    let p := insertManyUnordered st.db st.nextId uid books
    ({ db := p.1, nextId := p.2, cache := invalidateUserCache uid st.cache }, true)

/-- The GET route: serve the user's book list from the cache when the
entry exists, else read the database (the user's books, newest first),
store the list under the user's cache key and serve it. The Bool is
true when the response came from the cache. -/
def getBooks (st : ApiState) (uid : String) : ApiState × Bool × List BookRec :=
  match st.cache uid with
  | some l => (st, true, l)
  | none =>
    let l := (st.db.filter (fun b => b.userId == uid)).reverse
    ({ st with cache := fun u => if u = uid then some l else st.cache u }, false, l)

/-- Sample batch for the closed instantiations: a valid submission, one
with an empty title, and one whose isbn already exists in the store. -/
def sampleBooks : List BookSub :=
  [⟨some "A", some "X", none, none, none, none⟩,
   ⟨some "", some "Y", none, none, none, none⟩,
   ⟨some "C", some "Z", some "same", none, none, none⟩]

/-- Sample API state for the closed instantiations: one persisted book
owned by the user, every cache entry empty. -/
def sampleApiState : ApiState :=
  ⟨[⟨0, "T", "A", "i0", none, none, "u1"⟩], 1, fun _ => none⟩

/-- Sample API state whose cache entry for the user is populated, so a
closed instantiation can show a mutating route emptying it. -/
def samplePopState : ApiState :=
  ⟨[⟨0, "T", "A", "i0", none, none, "u1"⟩], 1, fun _ => some []⟩

example :
    let books : List BookSub :=
      [⟨some "A", some "X", none, none, none, none⟩,
       ⟨some "", some "Y", none, none, none, none⟩,
       ⟨some "C", some "Z", some "same", none, none, none⟩]
    let st := mkStatus "u1" "t0" ["same"] books
    st.successCount = 1 ∧ st.failureCount = 2 ∧
      st.failures.map Failure.index = [1, 2] := by decide

end BooksCron

namespace BooksCron

/-!
Helper lemmas about the per-batch loop of the Ingestion Job.
-/

theorem succeedsAt_cons_zero (isbns : List String) (b : BookSub)
    (rest : List BookSub) :
    succeedsAt isbns (b :: rest) 0 = isOkB (validateAndSave isbns b) := by
  simp only [succeedsAt, List.getElem?_cons_zero, List.take_zero, isbnsAfter]
  cases validateAndSave isbns b <;> rfl

theorem succeedsAt_cons_succ (isbns : List String) (b : BookSub)
    (rest : List BookSub) (j : Nat) :
    succeedsAt isbns (b :: rest) (j + 1) = succeedsAt (stepIsbns isbns b) rest j := by
  simp only [succeedsAt, List.getElem?_cons_succ, List.take_succ_cons, isbnsAfter]

theorem tally_counts (isbns : List String) (i0 : Nat) (books : List BookSub) :
    (processBooksFrom isbns i0 books).successCount
      + (processBooksFrom isbns i0 books).failureCount = books.length := by
  induction books generalizing isbns i0 with
  | nil => rfl
  | cons b rest ih =>
    cases h : validateAndSave isbns b with
    | ok isbns' =>
      simp only [processBooksFrom, h, List.length_cons]
      have := ih isbns' (i0 + 1)
      omega
    | error e =>
      simp only [processBooksFrom, h, List.length_cons]
      have := ih isbns (i0 + 1)
      omega

theorem tally_failures_length (isbns : List String) (i0 : Nat)
    (books : List BookSub) :
    (processBooksFrom isbns i0 books).failures.length
      = (processBooksFrom isbns i0 books).failureCount := by
  induction books generalizing isbns i0 with
  | nil => rfl
  | cons b rest ih =>
    cases h : validateAndSave isbns b with
    | ok isbns' =>
      simp only [processBooksFrom, h]
      exact ih isbns' (i0 + 1)
    | error e =>
      simp only [processBooksFrom, h, List.length_cons]
      have := ih isbns (i0 + 1)
      omega

theorem map_succ_map_add (i0 : Nat) (X : List Nat) :
    (X.map Nat.succ).map (· + i0) = X.map (· + (i0 + 1)) := by
  rw [List.map_map]
  congr 1
  funext a
  simp only [Function.comp_apply, Nat.succ_eq_add_one]
  omega

theorem tally_failures_map_index (isbns : List String) (i0 : Nat)
    (books : List BookSub) :
    (processBooksFrom isbns i0 books).failures.map Failure.index
      = (failIdx isbns books).map (· + i0) := by
  induction books generalizing isbns i0 with
  | nil => rfl
  | cons b rest ih =>
    have hzero := succeedsAt_cons_zero isbns b rest
    cases h : validateAndSave isbns b with
    | ok isbns' =>
      have hs : stepIsbns isbns b = isbns' := by simp [stepIsbns, h]
      have hcomp : ((fun j => !succeedsAt isbns (b :: rest) j) ∘ Nat.succ)
          = fun j => !succeedsAt isbns' rest j := by
        funext j
        simp only [Function.comp_apply, Nat.succ_eq_add_one, succeedsAt_cons_succ, hs]
      have hfi : failIdx isbns (b :: rest) = (failIdx isbns' rest).map Nat.succ := by
        simp only [failIdx, List.length_cons, List.range_succ_eq_map, List.filter_cons]
        rw [if_neg (by simp [hzero, h, isOkB]), List.filter_map, hcomp]
      simp only [processBooksFrom, h, hfi, map_succ_map_add]
      exact ih isbns' (i0 + 1)
    | error e =>
      have hs : stepIsbns isbns b = isbns := by simp [stepIsbns, h]
      have hcomp : ((fun j => !succeedsAt isbns (b :: rest) j) ∘ Nat.succ)
          = fun j => !succeedsAt isbns rest j := by
        funext j
        simp only [Function.comp_apply, Nat.succ_eq_add_one, succeedsAt_cons_succ, hs]
      have hfi : failIdx isbns (b :: rest) = 0 :: (failIdx isbns rest).map Nat.succ := by
        simp only [failIdx, List.length_cons, List.range_succ_eq_map, List.filter_cons]
        rw [if_pos (by simp [hzero, h, isOkB]), List.filter_map, hcomp]
      simp only [processBooksFrom, h, hfi, List.map_cons, map_succ_map_add, Nat.zero_add]
      exact congrArg (i0 :: ·) (ih isbns (i0 + 1))

theorem tally_success_eq (isbns : List String) (i0 : Nat) (books : List BookSub) :
    (processBooksFrom isbns i0 books).successCount = (succIdx isbns books).length := by
  induction books generalizing isbns i0 with
  | nil => rfl
  | cons b rest ih =>
    have hzero := succeedsAt_cons_zero isbns b rest
    cases h : validateAndSave isbns b with
    | ok isbns' =>
      have hs : stepIsbns isbns b = isbns' := by simp [stepIsbns, h]
      have hcomp : ((fun j => succeedsAt isbns (b :: rest) j) ∘ Nat.succ)
          = fun j => succeedsAt isbns' rest j := by
        funext j
        simp only [Function.comp_apply, Nat.succ_eq_add_one, succeedsAt_cons_succ, hs]
      have hsi : succIdx isbns (b :: rest) = 0 :: (succIdx isbns' rest).map Nat.succ := by
        simp only [succIdx, List.length_cons, List.range_succ_eq_map, List.filter_cons]
        rw [if_pos (by simp [hzero, h, isOkB]), List.filter_map, hcomp]
      simp only [processBooksFrom, h, hsi, List.length_cons, List.length_map]
      have := ih isbns' (i0 + 1)
      omega
    | error e =>
      have hs : stepIsbns isbns b = isbns := by simp [stepIsbns, h]
      have hcomp : ((fun j => succeedsAt isbns (b :: rest) j) ∘ Nat.succ)
          = fun j => succeedsAt isbns rest j := by
        funext j
        simp only [Function.comp_apply, Nat.succ_eq_add_one, succeedsAt_cons_succ, hs]
      have hsi : succIdx isbns (b :: rest) = (succIdx isbns rest).map Nat.succ := by
        simp only [succIdx, List.length_cons, List.range_succ_eq_map, List.filter_cons]
        rw [if_neg (by simp [hzero, h, isOkB]), List.filter_map, hcomp]
      simp only [processBooksFrom, h, hsi, List.length_map]
      exact ih isbns (i0 + 1)

end BooksCron

namespace BooksCron

theorem mem_failures_of_falsy_title (books : List BookSub) (isbns : List String)
    (i0 j : Nat) (b : BookSub) (hb : books[j]? = some b)
    (ht : truthy b.title = false) :
    (⟨i0 + j, "Unknown", requiredFieldsMsg⟩ : Failure)
      ∈ (processBooksFrom isbns i0 books).failures := by
  induction books generalizing isbns i0 j with
  | nil => simp at hb
  | cons a rest ih =>
    cases j with
    | zero =>
      rw [List.getElem?_cons_zero, Option.some_inj] at hb
      have hv : validateAndSave isbns a = .error requiredFieldsMsg := by
        rw [hb]
        simp [validateAndSave, ht]
      have htt : failTitle a = "Unknown" := by
        rw [hb]
        simp [failTitle, jsOr, ht]
      simp only [processBooksFrom, hv, htt, Nat.add_zero]
      exact List.mem_cons_self _ _
    | succ j' =>
      have hb' : rest[j']? = some b := by
        rw [← hb, List.getElem?_cons_succ]
      have harith : i0 + (j' + 1) = (i0 + 1) + j' := by omega
      cases hv : validateAndSave isbns a with
      | ok isbns' =>
        simp only [processBooksFrom, hv, harith]
        exact ih isbns' (i0 + 1) j' hb'
      | error e =>
        simp only [processBooksFrom, hv, harith]
        exact List.mem_cons_of_mem _ (ih isbns (i0 + 1) j' hb')

/-- C1: for every pending batch parsed as a nonempty sequence of N
submissions, the Ingestion Job writes a Batch Status Record whose
successCount is the number K of submissions that validate (truthy title
and author) and persist without error, whose failureCount is N − K, and
which carries exactly N − K Failure Detail entries whose index fields
are the original positions of the failed submissions — a strictly
increasing subsequence of the interval from 0 to N. -/
theorem c1_batch_status_counts (uid now : String) (isbns : List String)
    (books : List BookSub) (h : books ≠ []) :
    ∃ st : BulkStatus,
      (processIngestKey uid now isbns (.array books)).statusWritten
          = some (86400, st)
      ∧ st.totalBooks = books.length
      ∧ st.successCount = (succIdx isbns books).length
      ∧ st.failureCount = books.length - (succIdx isbns books).length
      ∧ st.failures.length = st.failureCount
      ∧ st.failures.map Failure.index = failIdx isbns books
      ∧ (st.failures.map Failure.index).Pairwise (· < ·)
      ∧ ∀ j ∈ st.failures.map Failure.index, j < books.length := by
  have hne : books.isEmpty = false := by
    cases books with
    | nil => exact absurd rfl h
    | cons a l => rfl
  refine ⟨mkStatus uid now isbns books, ?_, rfl, ?_, ?_, ?_, ?_, ?_, ?_⟩
  · simp [processIngestKey, hne]
  · exact tally_success_eq isbns 0 books
  · have h1 := tally_counts isbns 0 books
    have h2 := tally_success_eq isbns 0 books
    show (processBooksFrom isbns 0 books).failureCount = _
    omega
  · exact tally_failures_length isbns 0 books
  · have := tally_failures_map_index isbns 0 books
    simpa using this
  · have hmap : (mkStatus uid now isbns books).failures.map Failure.index
        = failIdx isbns books := by
      simpa using tally_failures_map_index isbns 0 books
    rw [hmap]
    exact (List.pairwise_lt_range _).sublist (List.filter_sublist _)
  · have hmap : (mkStatus uid now isbns books).failures.map Failure.index
        = failIdx isbns books := by
      simpa using tally_failures_map_index isbns 0 books
    rw [hmap]
    intro j hj
    exact List.mem_range.mp (List.mem_filter.mp hj).1

theorem c1_batch_status_counts_witness :
    sampleBooks ≠ [] ∧
    ∃ st : BulkStatus,
      (processIngestKey "u1" "t0" ["same"] (.array sampleBooks)).statusWritten
          = some (86400, st)
      ∧ st.totalBooks = sampleBooks.length
      ∧ st.successCount = (succIdx ["same"] sampleBooks).length
      ∧ st.failureCount = sampleBooks.length - (succIdx ["same"] sampleBooks).length
      ∧ st.failures.length = st.failureCount
      ∧ st.failures.map Failure.index = failIdx ["same"] sampleBooks
      ∧ (st.failures.map Failure.index).Pairwise (· < ·)
      ∧ ∀ j ∈ st.failures.map Failure.index, j < sampleBooks.length :=
  ⟨by decide, c1_batch_status_counts "u1" "t0" ["same"] sampleBooks (by decide)⟩

/-- C9: a failed submission whose title field is absent or empty is
recorded in the Failure Detail list with the placeholder title
"Unknown", the original position as its index, and the actual error
message (the required-fields validation error that such a submission
raises). -/
theorem c9_unknown_title_placeholder (uid now : String) (isbns : List String)
    (books : List BookSub) (j : Nat) (b : BookSub)
    (hb : books[j]? = some b) (ht : truthy b.title = false) :
    (⟨j, "Unknown", requiredFieldsMsg⟩ : Failure)
      ∈ (mkStatus uid now isbns books).failures := by
  have := mem_failures_of_falsy_title books isbns 0 j b hb ht
  simpa [mkStatus] using this

theorem c9_unknown_title_placeholder_witness :
    sampleBooks[1]? = some ⟨some "", some "Y", none, none, none, none⟩ ∧
    truthy (some "") = false ∧
    (⟨1, "Unknown", requiredFieldsMsg⟩ : Failure)
      ∈ (mkStatus "u1" "t0" ["same"] sampleBooks).failures :=
  ⟨by decide, by decide,
   c9_unknown_title_placeholder "u1" "t0" ["same"] sampleBooks 1
     ⟨some "", some "Y", none, none, none, none⟩ (by decide) (by decide)⟩

end BooksCron

namespace BooksCron

/-- C2 counterexample: a pending value on which `JSON.parse` throws is
not deleted and not silently skipped — contrary to the claim, the
per-user catch writes a Batch Error Record and leaves the key in place. -/
theorem c2_parse_failure_counterexample :
    (processIngestKey "u1" "t0" [] (.malformed "Unexpected token")).keyDeleted = false
    ∧ (processIngestKey "u1" "t0" [] (.malformed "Unexpected token")).statusWritten = none
    ∧ (processIngestKey "u1" "t0" [] (.malformed "Unexpected token")).bulkErrorWritten = true :=
  ⟨rfl, rfl, rfl⟩

/-- C2 amended: a pending value that parses to a non-sequence or to an
empty sequence is deleted and skipped with no Batch Status Record and no
Batch Error Record; a value that fails to parse yields no status record
either, but the key is not deleted — the per-user catch writes a Batch
Error Record and the key will be seen again. -/
theorem c2_malformed_batch_disposition (uid now : String) (isbns : List String)
    (e : String) :
    (processIngestKey uid now isbns .nonArray).keyDeleted = true
    ∧ (processIngestKey uid now isbns .nonArray).statusWritten = none
    ∧ (processIngestKey uid now isbns .nonArray).bulkErrorWritten = false
    ∧ (processIngestKey uid now isbns (.array [])).keyDeleted = true
    ∧ (processIngestKey uid now isbns (.array [])).statusWritten = none
    ∧ (processIngestKey uid now isbns (.array [])).bulkErrorWritten = false
    ∧ (processIngestKey uid now isbns (.malformed e)).keyDeleted = false
    ∧ (processIngestKey uid now isbns (.malformed e)).statusWritten = none
    ∧ (processIngestKey uid now isbns (.malformed e)).bulkErrorWritten = true :=
  ⟨rfl, rfl, rfl, rfl, rfl, rfl, rfl, rfl, rfl⟩

/-- C5 counterexample: a discovered pending batch key holding an empty
string is skipped without deletion, so it is still there after the pass
— contrary to the claim that every discovered pending key is deleted. -/
theorem c5_undeleted_key_counterexample :
    (ingestStep "u1" "t0" ⟨.emptyString, [], 0, none, []⟩).pending
        = BatchValue.emptyString
    ∧ (processIngestKey "u1" "t0" [] .emptyString).keyDeleted = false :=
  ⟨rfl, rfl⟩

/-- C5 amended: a pending batch key whose value is present and parses as
JSON (an array of any length, or a non-array) is always deleted after
one Ingestion Job pass, regardless of the success/failure mix; a key
whose value is absent or empty is skipped in place, and one whose value
fails to parse is left in place with a Batch Error Record. -/
theorem c5_key_deletion (uid now : String) (srs : List (Nat × BulkStatus))
    (bec : Nat) (cache : Option String) (isbns : List String)
    (books : List BookSub) (e : String) :
    (ingestStep uid now ⟨.array books, srs, bec, cache, isbns⟩).pending = .missing
    ∧ (ingestStep uid now ⟨.nonArray, srs, bec, cache, isbns⟩).pending = .missing
    ∧ (ingestStep uid now ⟨.malformed e, srs, bec, cache, isbns⟩).pending
        = .malformed e
    ∧ (ingestStep uid now ⟨.emptyString, srs, bec, cache, isbns⟩).pending
        = .emptyString := by
  refine ⟨?_, rfl, rfl, rfl⟩
  cases books with
  | nil => rfl
  | cons b rest => rfl

/-- C7 counterexample: an Ingestion Job pass that persists a book for
the user (a bulk-create affecting the user's books) leaves the user's
cached book-list entry present — `processBulkBooks` never invalidates
the cache. -/
theorem c7_ingest_leaves_cache_counterexample :
    (ingestStep "u1" "t0"
        ⟨.array [⟨some "A", some "X", some "i1", none, none, none⟩],
         [], 0, some "cached-book-list", []⟩).userBooksCache
      = some "cached-book-list"
    ∧ (ingestStep "u1" "t0"
        ⟨.array [⟨some "A", some "X", some "i1", none, none, none⟩],
         [], 0, some "cached-book-list", []⟩).isbns = ["i1"]
    ∧ (ingestStep "u1" "t0"
        ⟨.array [⟨some "A", some "X", some "i1", none, none, none⟩],
         [], 0, some "cached-book-list", []⟩).statusRecords ≠ [] :=
  ⟨rfl, rfl, List.cons_ne_nil _ _⟩

/-- C3: rendering a status record with totalBooks = 0 does not throw,
but the success-rate line interpolates the JS value NaN — the report
shows the error value "NaN%", not 0 and not "N/A" as required. -/
theorem c3_zero_total_rate_is_nan :
    successRate 0 0 = JsNum.nan
    ∧ renderRate 0 0 = "NaN"
    ∧ pdfSummaryLines 0 0 0
        = ["Total Books Processed: 0", "Successful Insertions: 0",
           "Failed Insertions: 0", "Success Rate: NaN%"]
    ∧ renderRate 0 0 ≠ "N/A" ∧ renderRate 0 0 ≠ "0"
    ∧ renderRate 0 0 ≠ "0.00" :=
  ⟨rfl, rfl, rfl, by decide, by decide, by decide⟩

end BooksCron

namespace BooksCron

/-!
Report Job disposition lemmas.
-/

theorem processReportKey_fail (uid key : String) (t : Nat) (env : ReportEnv)
    (ps : ParsedStatus) (hv : validStatus ps = true)
    (hf : reportAttemptOk env = false) :
    ∃ m, processReportKey uid key t env (.parsed ps)
        = ⟨false, none, some (mkErrRec uid key m t)⟩ := by
  have hcond : ¬((!validStatus ps) = true) := by simp [hv]
  cases hge : getUserEmail env.findUser env.cachedEmail env.defaultEmailEnv with
  | error e =>
    exact ⟨e, by simp only [processReportKey, if_neg hcond, hge]⟩
  | ok addr =>
    cases hr : env.renderResult with
    | error e =>
      exact ⟨e, by simp only [processReportKey, if_neg hcond, hge, hr]⟩
    | ok u =>
      cases hsend : env.sendResult with
      | error e =>
        exact ⟨e, by simp only [processReportKey, if_neg hcond, hge, hr, hsend]⟩
      | ok u' =>
        rw [reportAttemptOk, hge, hr, hsend] at hf
        simp at hf

theorem processReportKey_ok (uid key : String) (t : Nat) (env : ReportEnv)
    (ps : ParsedStatus) (hv : validStatus ps = true)
    (ho : reportAttemptOk env = true) :
    ∃ addr, processReportKey uid key t env (.parsed ps)
        = ⟨true, some addr, none⟩ := by
  have hcond : ¬((!validStatus ps) = true) := by simp [hv]
  cases hge : getUserEmail env.findUser env.cachedEmail env.defaultEmailEnv with
  | error e =>
    rw [reportAttemptOk, hge] at ho
    simp at ho
  | ok addr =>
    cases hr : env.renderResult with
    | error e =>
      rw [reportAttemptOk, hge, hr] at ho
      simp at ho
    | ok u =>
      cases hsend : env.sendResult with
      | error e =>
        rw [reportAttemptOk, hge, hr, hsend] at ho
        simp at ho
      | ok u' =>
        exact ⟨addr, by simp only [processReportKey, if_neg hcond, hge, hr, hsend]⟩

/-- C4: a status record that renders and sends successfully has its key
deleted and no error record written; any failure in lookup, render or
send leaves the status key in place and writes a Report Error Record
with a 24-hour TTL; and a record failing on two passes (at the distinct
wall-clock stamps successive passes have) is still present and has
produced two distinct error records. -/
theorem c4_report_disposition (uid key : String) (ps : ParsedStatus)
    (envOk envF1 envF2 : ReportEnv) (t0 t1 t2 : Nat)
    (hv : validStatus ps = true)
    (hok : reportAttemptOk envOk = true)
    (hf1 : reportAttemptOk envF1 = false)
    (hf2 : reportAttemptOk envF2 = false)
    (ht : t1 ≠ t2) :
    ((processReportKey uid key t0 envOk (.parsed ps)).keyDeleted = true
      ∧ (processReportKey uid key t0 envOk (.parsed ps)).errorRecord = none)
    ∧ ((processReportKey uid key t1 envF1 (.parsed ps)).keyDeleted = false
      ∧ ∃ r, (processReportKey uid key t1 envF1 (.parsed ps)).errorRecord = some r
          ∧ r.ttl = 86400)
    ∧ (∃ r1 r2,
        (reportPass uid key t2 envF2
            (reportPass uid key t1 envF1 ⟨.parsed ps, []⟩)).statusValue
          = .parsed ps
        ∧ (reportPass uid key t2 envF2
            (reportPass uid key t1 envF1 ⟨.parsed ps, []⟩)).errorRecords
          = [r1, r2]
        ∧ r1 ≠ r2) := by
  obtain ⟨addr, hOk⟩ := processReportKey_ok uid key t0 envOk ps hv hok
  obtain ⟨m1, h1⟩ := processReportKey_fail uid key t1 envF1 ps hv hf1
  obtain ⟨m2, h2⟩ := processReportKey_fail uid key t2 envF2 ps hv hf2
  refine ⟨⟨by rw [hOk], by rw [hOk]⟩,
          ⟨by rw [h1], ⟨mkErrRec uid key m1 t1, by rw [h1], rfl⟩⟩, ?_⟩
  have hp1 : reportPass uid key t1 envF1 ⟨.parsed ps, []⟩
      = ⟨.parsed ps, [mkErrRec uid key m1 t1]⟩ := by
    simp [reportPass, h1]
  have hp2 : reportPass uid key t2 envF2 ⟨.parsed ps, [mkErrRec uid key m1 t1]⟩
      = ⟨.parsed ps, [mkErrRec uid key m1 t1, mkErrRec uid key m2 t2]⟩ := by
    simp [reportPass, h2]
  refine ⟨mkErrRec uid key m1 t1, mkErrRec uid key m2 t2, ?_, ?_, ?_⟩
  · rw [hp1, hp2]
  · rw [hp1, hp2]
  · intro heq
    exact ht (congrArg ReportErrorRecord.timestamp heq)

theorem c4_report_disposition_witness :
    ∃ psv : Bool, psv = validStatus ⟨some "u1", some 3, 2, 1, "ts", []⟩
    ∧ (((processReportKey "u1" "k" 5
          ⟨.ok (some ⟨some "a@b.c"⟩), .ok none, none, .ok (), .ok ()⟩
          (.parsed ⟨some "u1", some 3, 2, 1, "ts", []⟩)).keyDeleted = true
        ∧ (processReportKey "u1" "k" 5
          ⟨.ok (some ⟨some "a@b.c"⟩), .ok none, none, .ok (), .ok ()⟩
          (.parsed ⟨some "u1", some 3, 2, 1, "ts", []⟩)).errorRecord = none)
      ∧ ((processReportKey "u1" "k" 10
          ⟨.ok (some ⟨some "a@b.c"⟩), .ok none, none, .ok (), .error "smtp down"⟩
          (.parsed ⟨some "u1", some 3, 2, 1, "ts", []⟩)).keyDeleted = false
        ∧ ∃ r, (processReportKey "u1" "k" 10
            ⟨.ok (some ⟨some "a@b.c"⟩), .ok none, none, .ok (), .error "smtp down"⟩
            (.parsed ⟨some "u1", some 3, 2, 1, "ts", []⟩)).errorRecord = some r
            ∧ r.ttl = 86400)
      ∧ (∃ r1 r2,
          (reportPass "u1" "k" 20
              ⟨.ok (some ⟨some "a@b.c"⟩), .ok none, none, .ok (), .error "smtp down"⟩
              (reportPass "u1" "k" 10
                ⟨.ok (some ⟨some "a@b.c"⟩), .ok none, none, .ok (), .error "smtp down"⟩
                ⟨.parsed ⟨some "u1", some 3, 2, 1, "ts", []⟩, []⟩)).statusValue
            = .parsed ⟨some "u1", some 3, 2, 1, "ts", []⟩
          ∧ (reportPass "u1" "k" 20
              ⟨.ok (some ⟨some "a@b.c"⟩), .ok none, none, .ok (), .error "smtp down"⟩
              (reportPass "u1" "k" 10
                ⟨.ok (some ⟨some "a@b.c"⟩), .ok none, none, .ok (), .error "smtp down"⟩
                ⟨.parsed ⟨some "u1", some 3, 2, 1, "ts", []⟩, []⟩)).errorRecords
            = [r1, r2]
          ∧ r1 ≠ r2)) :=
  ⟨true, rfl,
   c4_report_disposition "u1" "k" ⟨some "u1", some 3, 2, 1, "ts", []⟩
     ⟨.ok (some ⟨some "a@b.c"⟩), .ok none, none, .ok (), .ok ()⟩
     ⟨.ok (some ⟨some "a@b.c"⟩), .ok none, none, .ok (), .error "smtp down"⟩
     ⟨.ok (some ⟨some "a@b.c"⟩), .ok none, none, .ok (), .error "smtp down"⟩
     5 10 20 rfl rfl rfl rfl (by decide)⟩

end BooksCron

namespace BooksCron

/-- C6: a discovered status key whose value is absent produces no email
and no error record and is absent after the pass; one whose parsed value
is missing a required field (userId or totalBooks) is deleted and
skipped, likewise with no email and no error record — malformed status
data is discarded, not retried. -/
theorem c6_invalid_status_discarded (uid key : String) (t : Nat)
    (env : ReportEnv) (ps : ParsedStatus) (hv : validStatus ps = false) :
    (reportPass uid key t env ⟨.missing, []⟩).statusValue = .missing
    ∧ (reportPass uid key t env ⟨.missing, []⟩).errorRecords = []
    ∧ (processReportKey uid key t env .missing).emailSent = none
    ∧ (processReportKey uid key t env (.parsed ps)).keyDeleted = true
    ∧ (reportPass uid key t env ⟨.parsed ps, []⟩).statusValue = .missing
    ∧ (reportPass uid key t env ⟨.parsed ps, []⟩).errorRecords = []
    ∧ (processReportKey uid key t env (.parsed ps)).emailSent = none
    ∧ (processReportKey uid key t env (.parsed ps)).errorRecord = none := by
  have hres : processReportKey uid key t env (.parsed ps) = ⟨true, none, none⟩ := by
    simp [processReportKey, hv]
  exact ⟨rfl, rfl, rfl, by rw [hres], by simp [reportPass, hres],
         by simp [reportPass, hres], by rw [hres], by rw [hres]⟩

theorem c6_invalid_status_discarded_witness :
    validStatus ⟨none, some 3, 0, 0, "ts", []⟩ = false
    ∧ ((reportPass "u1" "k" 7 ⟨.ok none, .ok none, none, .ok (), .ok ()⟩
          ⟨.missing, []⟩).statusValue = .missing
      ∧ (reportPass "u1" "k" 7 ⟨.ok none, .ok none, none, .ok (), .ok ()⟩
          ⟨.missing, []⟩).errorRecords = []
      ∧ (processReportKey "u1" "k" 7 ⟨.ok none, .ok none, none, .ok (), .ok ()⟩
          .missing).emailSent = none
      ∧ (processReportKey "u1" "k" 7 ⟨.ok none, .ok none, none, .ok (), .ok ()⟩
          (.parsed ⟨none, some 3, 0, 0, "ts", []⟩)).keyDeleted = true
      ∧ (reportPass "u1" "k" 7 ⟨.ok none, .ok none, none, .ok (), .ok ()⟩
          ⟨.parsed ⟨none, some 3, 0, 0, "ts", []⟩, []⟩).statusValue = .missing
      ∧ (reportPass "u1" "k" 7 ⟨.ok none, .ok none, none, .ok (), .ok ()⟩
          ⟨.parsed ⟨none, some 3, 0, 0, "ts", []⟩, []⟩).errorRecords = []
      ∧ (processReportKey "u1" "k" 7 ⟨.ok none, .ok none, none, .ok (), .ok ()⟩
          (.parsed ⟨none, some 3, 0, 0, "ts", []⟩)).emailSent = none
      ∧ (processReportKey "u1" "k" 7 ⟨.ok none, .ok none, none, .ok (), .ok ()⟩
          (.parsed ⟨none, some 3, 0, 0, "ts", []⟩)).errorRecord = none) :=
  ⟨rfl, c6_invalid_status_discarded "u1" "k" 7
    ⟨.ok none, .ok none, none, .ok (), .ok ()⟩
    ⟨none, some 3, 0, 0, "ts", []⟩ rfl⟩

theorem truthy_none : truthy (none : Option String) = false := rfl

/-- C8: when neither lookup throws, `getUserEmail` resolves the address
exactly as the spec describes — the looked-up user's address when it
carries one, else the cached address, else the configured default. -/
theorem c8_address_resolution (uopt : Option UserDoc) (c denv : Option String) :
    getUserEmail (.ok uopt) (.ok c) denv
      = .ok (resolveAddressSpec uopt c (jsOr denv "admin@example.com")) := by
  cases uopt with
  | none =>
    cases htc : truthy c
    · simp [getUserEmail, cachedOrDefault, resolveAddressSpec, htc, truthy_none]
    · simp [getUserEmail, cachedOrDefault, resolveAddressSpec, htc, truthy_none]
  | some u =>
    cases hte : truthy u.email
    · cases htc : truthy c
      · simp [getUserEmail, cachedOrDefault, resolveAddressSpec, hte, htc]
      · simp [getUserEmail, cachedOrDefault, resolveAddressSpec, hte, htc]
    · simp [getUserEmail, resolveAddressSpec, hte]

/-- C10: a throwing user lookup propagates out of `getUserEmail` (so the
default address is never used on the error path), and inside the Report
Job it is a per-record failure: the error record carries the thrown
message and the status key is left in place. -/
theorem c10_lookup_error_propagates (e : String)
    (cm : Except String (Option String)) (uopt : Option UserDoc)
    (denv : Option String) (uid key : String) (t : Nat) (env : ReportEnv)
    (ps : ParsedStatus)
    (hu : truthy (uopt.bind UserDoc.email) = false)
    (hv : validStatus ps = true)
    (henv : env.findUser = .error e) :
    getUserEmail (.error e) cm denv = .error e
    ∧ getUserEmail (.ok uopt) (.error e) denv = .error e
    ∧ (processReportKey uid key t env (.parsed ps)).keyDeleted = false
    ∧ (processReportKey uid key t env (.parsed ps)).errorRecord
        = some (mkErrRec uid key e t)
    ∧ (reportPass uid key t env ⟨.parsed ps, []⟩).statusValue = .parsed ps := by
  have h2 : getUserEmail (.ok uopt) (.error e) denv = .error e := by
    cases uopt with
    | none => rfl
    | some u =>
      have hue : truthy u.email = false := by simpa using hu
      simp [getUserEmail, cachedOrDefault, hue]
  have hge : getUserEmail env.findUser env.cachedEmail env.defaultEmailEnv
      = .error e := by
    rw [henv]
    rfl
  have hcond : ¬((!validStatus ps) = true) := by simp [hv]
  have hres : processReportKey uid key t env (.parsed ps)
      = ⟨false, none, some (mkErrRec uid key e t)⟩ := by
    simp only [processReportKey, if_neg hcond, hge]
  exact ⟨rfl, h2, by rw [hres], by rw [hres], by simp [reportPass, hres]⟩

theorem c10_lookup_error_propagates_witness :
    truthy ((some (⟨none⟩ : UserDoc)).bind UserDoc.email) = false
    ∧ validStatus ⟨some "u1", some 2, 1, 1, "ts", []⟩ = true
    ∧ (getUserEmail (.error "db down") (.ok none) none = .error "db down"
      ∧ getUserEmail (.ok (some ⟨none⟩)) (.error "db down") none = .error "db down"
      ∧ (processReportKey "u1" "k" 7
          ⟨.error "db down", .ok none, none, .ok (), .ok ()⟩
          (.parsed ⟨some "u1", some 2, 1, 1, "ts", []⟩)).keyDeleted = false
      ∧ (processReportKey "u1" "k" 7
          ⟨.error "db down", .ok none, none, .ok (), .ok ()⟩
          (.parsed ⟨some "u1", some 2, 1, 1, "ts", []⟩)).errorRecord
          = some (mkErrRec "u1" "k" "db down" 7)
      ∧ (reportPass "u1" "k" 7 ⟨.error "db down", .ok none, none, .ok (), .ok ()⟩
          ⟨.parsed ⟨some "u1", some 2, 1, 1, "ts", []⟩, []⟩).statusValue
          = .parsed ⟨some "u1", some 2, 1, 1, "ts", []⟩) :=
  ⟨rfl, rfl,
   c10_lookup_error_propagates "db down" (.ok none) (some ⟨none⟩) none
     "u1" "k" 7 ⟨.error "db down", .ok none, none, .ok (), .ok ()⟩
     ⟨some "u1", some 2, 1, 1, "ts", []⟩ rfl rfl rfl⟩

end BooksCron

namespace BooksCron

/-!
Route-handler cache lemmas: each mutating handler either rejects the
request (returns false) or ends with the user's cache entry deleted.
-/

theorem createBook_cache_cases (st : ApiState) (uid title author isbn : String)
    (py : Option Nat) (genre : Option String) :
    (createBook st uid title author isbn py genre).2 = false
    ∨ (createBook st uid title author isbn py genre).1.cache uid = none := by
  unfold createBook
  split
  · exact Or.inl rfl
  · split
    · exact Or.inl rfl
    · exact Or.inr (by simp [invalidateUserCache])

theorem updateBook_cache_cases (st : ApiState) (uid : String) (bid : Nat)
    (tO aO iO : Option String) (py : Option Nat) (genre : Option String) :
    (updateBook st uid bid tO aO iO py genre).2 = false
    ∨ (updateBook st uid bid tO aO iO py genre).1.cache uid = none := by
  unfold updateBook
  split
  · exact Or.inl rfl
  · dsimp only
    split
    · exact Or.inl rfl
    · exact Or.inr (by simp [invalidateUserCache])

theorem deleteBook_cache_cases (st : ApiState) (uid : String) (bid : Nat) :
    (deleteBook st uid bid).2 = false
    ∨ (deleteBook st uid bid).1.cache uid = none := by
  unfold deleteBook
  split
  · exact Or.inl rfl
  · exact Or.inr (by simp [invalidateUserCache])

theorem bulkInsertBooks_cache_cases (st : ApiState) (uid : String)
    (books : List BulkRouteBook) :
    (bulkInsertBooks st uid books).2 = false
    ∨ (bulkInsertBooks st uid books).1.cache uid = none := by
  unfold bulkInsertBooks
  split
  · exact Or.inl rfl
  · split
    · exact Or.inl rfl
    · exact Or.inr (by simp [invalidateUserCache])

/-- C7 amended: after any create, update, delete or bulk-create that the
API routes accept for a user — starting from any state, including one
whose cache entry is populated — that user's cached book-list entry is
absent; a read on a cache miss goes to the database and repopulates the
cache with the user's fresh list; and the Ingestion Job's bulk
persistence, by contrast, leaves the cache entry untouched. -/
theorem c7_route_cache_invalidation (st : ApiState)
    (uid title author isbn : String) (py : Option Nat) (genre : Option String)
    (bid : Nat) (tO aO iO : Option String) (books : List BulkRouteBook)
    (s' : IngestStore) (now : String) :
    ((createBook st uid title author isbn py genre).2 = true →
      (createBook st uid title author isbn py genre).1.cache uid = none)
    ∧ ((updateBook st uid bid tO aO iO py genre).2 = true →
      (updateBook st uid bid tO aO iO py genre).1.cache uid = none)
    ∧ ((deleteBook st uid bid).2 = true →
      (deleteBook st uid bid).1.cache uid = none)
    ∧ ((bulkInsertBooks st uid books).2 = true →
      (bulkInsertBooks st uid books).1.cache uid = none)
    ∧ (ingestStep uid now s').userBooksCache = s'.userBooksCache
    ∧ (st.cache uid = none →
        (getBooks st uid).2.1 = false
        ∧ (getBooks st uid).2.2 = (st.db.filter (fun b => b.userId == uid)).reverse
        ∧ (getBooks st uid).1.cache uid
            = some ((st.db.filter (fun b => b.userId == uid)).reverse)) := by
  refine ⟨?_, ?_, ?_, ?_, rfl, ?_⟩
  · intro hc
    exact (createBook_cache_cases st uid title author isbn py genre).resolve_left
      (by simp [hc])
  · intro hu
    exact (updateBook_cache_cases st uid bid tO aO iO py genre).resolve_left
      (by simp [hu])
  · intro hd
    exact (deleteBook_cache_cases st uid bid).resolve_left (by simp [hd])
  · intro hb
    exact (bulkInsertBooks_cache_cases st uid books).resolve_left (by simp [hb])
  · intro hmiss
    exact ⟨by simp [getBooks, hmiss], by simp [getBooks, hmiss],
           by simp [getBooks, hmiss]⟩

theorem c7_route_cache_invalidation_witness :
    samplePopState.cache "u1" = some []
    ∧ (createBook samplePopState "u1" "T2" "A2" "i1" none none).2 = true
    ∧ (createBook samplePopState "u1" "T2" "A2" "i1" none none).1.cache "u1" = none
    ∧ (updateBook samplePopState "u1" 0 none none none none none).2 = true
    ∧ (updateBook samplePopState "u1" 0 none none none none none).1.cache "u1" = none
    ∧ (deleteBook samplePopState "u1" 0).2 = true
    ∧ (deleteBook samplePopState "u1" 0).1.cache "u1" = none
    ∧ (bulkInsertBooks samplePopState "u1" [⟨"B", "C", "i2"⟩]).2 = true
    ∧ (bulkInsertBooks samplePopState "u1" [⟨"B", "C", "i2"⟩]).1.cache "u1" = none
    ∧ (ingestStep "u1" "t0" ⟨.missing, [], 0, some "c", []⟩).userBooksCache
        = (⟨.missing, [], 0, some "c", []⟩ : IngestStore).userBooksCache
    ∧ sampleApiState.cache "u1" = none
    ∧ (getBooks sampleApiState "u1").2.1 = false
    ∧ (getBooks sampleApiState "u1").2.2
        = (sampleApiState.db.filter (fun b => b.userId == "u1")).reverse
    ∧ (getBooks sampleApiState "u1").1.cache "u1"
        = some ((sampleApiState.db.filter (fun b => b.userId == "u1")).reverse) := by
  obtain ⟨h1, h2, h3, h4, h5, _⟩ :=
    c7_route_cache_invalidation samplePopState "u1" "T2" "A2" "i1" none none
      0 none none none [⟨"B", "C", "i2"⟩] ⟨.missing, [], 0, some "c", []⟩ "t0"
  obtain ⟨_, _, _, _, _, h6⟩ :=
    c7_route_cache_invalidation sampleApiState "u1" "T2" "A2" "i1" none none
      0 none none none [⟨"B", "C", "i2"⟩] ⟨.missing, [], 0, some "c", []⟩ "t0"
  obtain ⟨h6a, h6b, h6c⟩ := h6 rfl
  exact ⟨rfl, rfl, h1 rfl, rfl, h2 rfl, rfl, h3 rfl, rfl, h4 rfl, h5, rfl,
         h6a, h6b, h6c⟩

end BooksCron
